import Mathlib

/-!
# PX4 commander and simulator bridge: a verification development

Two source files are covered.

* `src/modules/commander/Commander.hpp` declares the commander: the signatures of
  `arm` and `disarm` with their default arguments, the monitoring interval, the
  failsafe action enumeration and the link and latch fields.  The bodies of the
  member functions live in other translation units; where a property depends on
  such a body, the body is modelled from the specification and the definition says so.
* `src/modules/simulation/simulator_ignition_bridge/SimulatorIgnitionBridge.cpp`
  is embedded from its code: option handling of `task_spawn`, and the frame
  conversions of `imuCallback` and `poseInfoCallback`.

Times are `hrt_abstime` values: unsigned 64-bit counts of microseconds.
-/

namespace Commander

/-! ## Arming state machine -/

/-- Modelled from the spec: the arming states of section 3 (`ArmingState`); the
enumeration itself is declared outside `Commander.hpp`. -/
inductive ArmingState
  | INIT
  | STANDBY
  | ARMED
  | SHUTDOWN
  deriving DecidableEq, Repr

/-- Modelled from the spec: the result of `arm` and `disarm` (section 4.1:
"Returns {ACCEPTED, DENIED, ALREADY_IN_STATE}"); the type `transition_result_t`
is only named by `Commander.hpp`. -/
inductive transition_result_t
  | ACCEPTED
  | DENIED
  | ALREADY_IN_STATE
  deriving DecidableEq, Repr

/-- Modelled from the spec: `arm_disarm_reason_t` is declared outside
`Commander.hpp`; a reason is kept as its numeric code, and which reasons are
overrides or always-allowed is configuration. -/
abbrev arm_disarm_reason_t := Nat

/-- Modelled from the spec: the check categories of section 4.2. -/
inductive Category
  | sensors
  | estimator
  | battery
  | rc
  | mission
  | system
  deriving DecidableEq, Repr

/-- Modelled from the spec: a `HealthCheckResult` of section 3 (identifier,
pass/fail, severity); `critical` is the severity of a safety-critical check,
which no override bypasses. -/
structure HealthCheckResult where
  id : Nat
  category : Category
  pass : Bool
  critical : Bool
  deriving DecidableEq, Repr

/-- Modelled from the spec: the configuration the arming state machine reads.
`required` marks the categories whose checks gate arming (section 4.2),
`bypass reason id` lists the checks a whitelisted override reason skips
(section 4.1), `interlock_enabled` makes the safety switch a mandatory gate
(section 3), `always_allowed_disarm` is the always-allowed set of disarm reasons
(section 4.1). -/
structure ArmConfig where
  required : Category → Bool
  bypass : arm_disarm_reason_t → Nat → Bool
  interlock_enabled : Bool
  always_allowed_disarm : arm_disarm_reason_t → Bool

/-- Modelled from the spec: what the state machine consults at the moment of a
command: the current health check results, the state of the physical
arm-enable switch, and the landed signal of the land detector. -/
structure ArmEnv where
  checks : List HealthCheckResult
  safety_permits : Bool
  landed : Bool

/-- Modelled from the spec: a check is bypassed for a reason when the reason is
whitelisted for it and the check is not safety-critical (section 4.1: overrides
"bypass specific non-safety checks but never safety-interlock or critical
checks"). -/
def bypassed (cfg : ArmConfig) (reason : arm_disarm_reason_t) (r : HealthCheckResult) : Bool :=
  cfg.bypass reason r.id && !r.critical

/-- Modelled from the spec: the check gate of `arm` (section 4.1): every check of
a required category passes or is bypassed for the calling reason. -/
def checksPermit (cfg : ArmConfig) (reason : arm_disarm_reason_t)
    (checks : List HealthCheckResult) : Bool :=
  checks.all (fun r => !cfg.required r.category || r.pass || bypassed cfg reason r)

/-- Modelled from the spec: every safety-critical check of a required category
passes.  Section 4.1 lets nothing bypass these ("never safety-interlock or
critical checks"), so `arm` applies this gate to every call. -/
def criticalChecksPass (cfg : ArmConfig) (checks : List HealthCheckResult) : Bool :=
  checks.all (fun r => !(cfg.required r.category && r.critical) || r.pass)

/-- Modelled from the spec: the safety interlock of section 3, a "mandatory gate
when enabled by configuration". -/
def interlockPermits (cfg : ArmConfig) (env : ArmEnv) : Bool :=
  !cfg.interlock_enabled || env.safety_permits

/-- Modelled from the spec: the part of the commander state the arming state
machine owns.  `_have_taken_off_since_arming` is the field of that name in
`Commander.hpp`; `armed_reason` is the reason published with the armed status. -/
structure ArmState where
  arming_state : ArmingState
  armed_reason : Option arm_disarm_reason_t
  _have_taken_off_since_arming : Bool
  deriving DecidableEq, Repr

/-- Modelled from the spec: the body of `Commander::arm` (section 4.1); only its
declaration, `transition_result_t arm(arm_disarm_reason_t calling_reason,
bool run_preflight_checks = true)`, is in `Commander.hpp`, and the default of
the second parameter is taken from that declaration.  Arming is allowed only
from STANDBY, denied when a safety-critical check fails, denied when the
preflight checks are run and do not permit it, denied when the interlock
blocks.  A call with `run_preflight_checks = false` skips the preflight
checks, not the safety-critical ones and not the interlock. -/
def arm (cfg : ArmConfig) (env : ArmEnv) (s : ArmState)
    (calling_reason : arm_disarm_reason_t) (run_preflight_checks : Bool := true) :
    transition_result_t × ArmState :=
  if s.arming_state = ArmingState.ARMED then
    (transition_result_t.ALREADY_IN_STATE, s)
  else if s.arming_state ≠ ArmingState.STANDBY then
    (transition_result_t.DENIED, s)
  else if !criticalChecksPass cfg env.checks then
    (transition_result_t.DENIED, s)
  else if run_preflight_checks && !checksPermit cfg calling_reason env.checks then
    (transition_result_t.DENIED, s)
  else if !interlockPermits cfg env then
    (transition_result_t.DENIED, s)
  else
    (transition_result_t.ACCEPTED,
      { s with arming_state := ArmingState.ARMED, armed_reason := some calling_reason })

/-- Modelled from the spec: the body of `Commander::disarm` (section 4.1); only
its declaration, `transition_result_t disarm(arm_disarm_reason_t calling_reason,
bool forced = false)`, is in `Commander.hpp`, and the default of the second
parameter is taken from that declaration.  Disarming from ARMED is allowed when
forced, when landed, or for an always-allowed reason, and resets the
per-arming-episode latch. -/
def disarm (cfg : ArmConfig) (env : ArmEnv) (s : ArmState)
    (calling_reason : arm_disarm_reason_t) (forced : Bool := false) :
    transition_result_t × ArmState :=
  if s.arming_state = ArmingState.STANDBY then
    (transition_result_t.ALREADY_IN_STATE, s)
  else if s.arming_state ≠ ArmingState.ARMED then
    (transition_result_t.DENIED, s)
  else if forced || env.landed || cfg.always_allowed_disarm calling_reason then
    (transition_result_t.ACCEPTED,
      { s with arming_state := ArmingState.STANDBY, _have_taken_off_since_arming := false })
  else
    (transition_result_t.DENIED, s)

/-! ## Failsafe arbitration -/

/-- Modelled from the spec: the failsafe actions of section 4.5,
"{none, warn, hold, return, land, terminate}". -/
inductive FailsafeAction
  | NONE
  | WARN
  | HOLD
  | RETURN
  | LAND
  | TERMINATE
  deriving DecidableEq, Repr

/-- Modelled from the spec: the rank of an action in the fixed total order of
section 4.5, "terminate > land > return > hold/loiter > warn > none". -/
def FailsafeAction.severity : FailsafeAction → Nat
  | FailsafeAction.NONE => 0
  | FailsafeAction.WARN => 1
  | FailsafeAction.HOLD => 2
  | FailsafeAction.RETURN => 3
  | FailsafeAction.LAND => 4
  | FailsafeAction.TERMINATE => 5

/-- Modelled from the spec: the more severe of two actions. -/
def FailsafeAction.moreSevere (a b : FailsafeAction) : FailsafeAction :=
  if a.severity < b.severity then b else a

/-- The settings of the actuator failure action, `enum class
ActuatorFailureActions` of `Commander.hpp`. -/
inductive ActuatorFailureActions
  | DISABLED
  | AUTO_LOITER
  | AUTO_LAND
  | AUTO_RTL
  | TERMINATE
  deriving DecidableEq, Repr

/-- The numeric value of each setting, as the enumeration declares it. -/
def ActuatorFailureActions.toNat : ActuatorFailureActions → Nat
  | ActuatorFailureActions.DISABLED => 0
  | ActuatorFailureActions.AUTO_LOITER => 1
  | ActuatorFailureActions.AUTO_LAND => 2
  | ActuatorFailureActions.AUTO_RTL => 3
  | ActuatorFailureActions.TERMINATE => 4

/-- Modelled from the spec: the failsafe action each actuator-failure setting
names, in the action set of section 4.5 (loiter is hold, RTL is return). -/
def ActuatorFailureActions.toAction : ActuatorFailureActions → FailsafeAction
  | ActuatorFailureActions.DISABLED => FailsafeAction.NONE
  | ActuatorFailureActions.AUTO_LOITER => FailsafeAction.HOLD
  | ActuatorFailureActions.AUTO_LAND => FailsafeAction.LAND
  | ActuatorFailureActions.AUTO_RTL => FailsafeAction.RETURN
  | ActuatorFailureActions.TERMINATE => FailsafeAction.TERMINATE

/-- Modelled from the spec: a `FailsafeCondition` of section 3, "a debounced
boolean and a configured required action". -/
structure FailsafeCondition where
  active : Bool
  action : FailsafeAction
  deriving DecidableEq, Repr

/-- Modelled from the spec: the pass of the arbitrator over the conditions of a
cycle, keeping the most severe action among the active ones seen so far. -/
def arbitrateFrom (init : FailsafeAction) (conditions : List FailsafeCondition) : FailsafeAction :=
  conditions.foldl
    (fun acc c => if c.active then FailsafeAction.moreSevere acc c.action else acc) init

/-- Modelled from the spec: the failsafe arbitrator of section 4.5, which is
not part of `Commander.hpp`: it goes through the conditions of the cycle and
keeps the most severe action among the active ones, starting from none. -/
def arbitrate (conditions : List FailsafeCondition) : FailsafeAction :=
  arbitrateFrom FailsafeAction.NONE conditions

/-! ## Data-link monitor -/

/-- The data-link classes for which `Commander.hpp` keeps a last-heartbeat
time: `_datalink_last_heartbeat_gcs`, `_datalink_last_heartbeat_onboard_controller`,
`_datalink_last_heartbeat_avoidance_system`, `_datalink_last_heartbeat_parachute_system`
and `_high_latency_datalink_heartbeat`. -/
inductive LinkClass
  | gcs
  | onboard_controller
  | avoidance_system
  | parachute_system
  | high_latency
  deriving DecidableEq, Repr

/-- Modelled from the spec: the configuration of one link class (section 4.4 and
section 6).  The timeouts are durations in `hrt_abstime` units (microseconds),
the form in which a parameter given in seconds is compared with an elapsed
time: the integer parameters `COM_DL_LOSS_T`, `COM_HLDL_LOSS_T` and
`COM_HLDL_REG_T` and the fractional parameter `COM_OBC_LOSS_T` of
`Commander.hpp` are all covered (2.5 s is 2500000). -/
structure LinkConfig where
  loss_timeout_us : Nat
  regain_timeout_us : Nat
  action : FailsafeAction
  deriving DecidableEq, Repr

/-- Modelled from the spec: the monitor of one link class: the time of the last
heartbeat, the debounced lost flag, and, while lost, the time of the heartbeat
since which the heartbeat has been present without interruption. -/
structure LinkMonitor where
  last_heartbeat : Nat
  lost : Bool
  present_since : Option Nat
  deriving DecidableEq, Repr

/-- One second in `hrt_abstime` units (microseconds). -/
def SECOND_US : Nat := 1000000

/-- Modelled from the spec: the heartbeat is absent at `now` when its age
exceeds the loss timeout (section 4.4).  The age is the time elapsed since the
last heartbeat, `now - last_heartbeat`, zero when `now` is not after it. -/
def heartbeatAbsent (cfg : LinkConfig) (last_heartbeat now : Nat) : Bool :=
  decide (cfg.loss_timeout_us < now - last_heartbeat)

/-- Modelled from the spec: one evaluation of a link monitor at time `now`
(section 4.4); `heartbeat` tells whether a heartbeat of this class arrived
since the previous evaluation.  A link is declared lost once the age of the
last heartbeat exceeds the loss timeout.  A lost link starts counting at the
evaluation at which a heartbeat arrives, keeps counting while the heartbeat is
not absent, and is declared regained once the count reaches the regain
timeout; a lost link that has received no heartbeat since the loss stays
lost. -/
def LinkMonitor.update (cfg : LinkConfig) (m : LinkMonitor) (now : Nat) (heartbeat : Bool) :
    LinkMonitor :=
  let last := if heartbeat then now else m.last_heartbeat
  if heartbeatAbsent cfg last now then
    { last_heartbeat := last, lost := true, present_since := none }
  else if !m.lost then
    { last_heartbeat := last, lost := false, present_since := none }
  else
    let counting : Option Nat := match m.present_since with
      | some since => some since
      | none => if heartbeat then some now else none
    match counting with
    | none => { last_heartbeat := last, lost := true, present_since := none }
    | some since =>
      if cfg.regain_timeout_us ≤ now - since then
        { last_heartbeat := last, lost := false, present_since := none }
      else
        { last_heartbeat := last, lost := true, present_since := some since }

/-- Modelled from the spec: the body of `Commander::data_link_check`, declared
in `Commander.hpp` ("Checks the status of all available data links"): every
link class is evaluated with its own configuration. -/
def data_link_check (cfg : LinkClass → LinkConfig) (links : LinkClass → LinkMonitor)
    (now : Nat) (heartbeat : LinkClass → Bool) : LinkClass → LinkMonitor :=
  fun c => LinkMonitor.update (cfg c) (links c) now (heartbeat c)

/-- Successive evaluations of one link monitor; a cycle is the pair of its time
and whether a heartbeat arrived. -/
def LinkMonitor.run (cfg : LinkConfig) (m : LinkMonitor) (cycles : List (Nat × Bool)) :
    LinkMonitor :=
  cycles.foldl (fun acc c => LinkMonitor.update cfg acc c.1 c.2) m

/-- The link configuration of the worked example, the same for every class:
loss timeout 5 s, regain timeout 2 s, action return. -/
def exampleLinkConfig : LinkClass → LinkConfig :=
  fun _ => { loss_timeout_us := 5 * SECOND_US, regain_timeout_us := 2 * SECOND_US,
             action := FailsafeAction.RETURN }

/-- Modelled from the spec: the configuration of the commander. -/
structure Config where
  arming : ArmConfig
  link : LinkClass → LinkConfig

/-- Modelled from the spec: the commander state the monitoring loop owns.
`_flight_termination_triggered` is the field of that name in `Commander.hpp`. -/
structure State where
  arming : ArmState
  links : LinkClass → LinkMonitor
  _flight_termination_triggered : Bool
  selected_action : FailsafeAction

/-- Modelled from the spec: the state a commander starts in, arming state INIT
(section 4.1), with the initial values `Commander.hpp` gives its fields: last
heartbeats at 0, only the parachute system link lost, no termination
triggered. -/
def State.initial : State :=
  { arming := { arming_state := ArmingState.INIT, armed_reason := none,
                _have_taken_off_since_arming := false }
    links := fun c =>
      { last_heartbeat := 0, lost := decide (c = LinkClass.parachute_system),
        present_since := none }
    _flight_termination_triggered := false
    selected_action := FailsafeAction.NONE }

/-- Modelled from the spec: the inputs one monitoring cycle drains (section 5):
the time, the heartbeats seen per link class, and the conditions the other
monitors and the failure detector report. -/
structure CycleInput where
  now : Nat
  heartbeat : LinkClass → Bool
  conditions : List FailsafeCondition

/-- All link classes, in the order their fields are declared. -/
def LinkClass.all : List LinkClass :=
  [LinkClass.gcs, LinkClass.avoidance_system, LinkClass.onboard_controller,
   LinkClass.parachute_system, LinkClass.high_latency]

/-- Modelled from the spec: the link-lost conditions of a cycle, each link class
with its configured action (section 4.4). -/
def linkConditions (cfg : LinkClass → LinkConfig) (links : LinkClass → LinkMonitor) :
    List FailsafeCondition :=
  LinkClass.all.map (fun c => { active := (links c).lost, action := (cfg c).action })

/-- Modelled from the spec: one monitoring cycle (section 2, "data flow per
cycle"): update the link monitors, arbitrate the failsafe action over all
conditions, latch termination.  Termination is sticky (section 4.5): once
triggered the selected action stays terminate. -/
def cycle (cfg : Config) (s : State) (inp : CycleInput) : State :=
  let links := data_link_check cfg.link s.links inp.now inp.heartbeat
  let selected := arbitrate (linkConditions cfg.link links ++ inp.conditions)
  let triggered := s._flight_termination_triggered || decide (selected = FailsafeAction.TERMINATE)
  { s with
    links := links
    _flight_termination_triggered := triggered
    selected_action := if triggered then FailsafeAction.TERMINATE else selected }

/-- Modelled from the spec: the operations that change the commander state: the
end of initialisation (INIT to STANDBY), an arm or disarm command, a monitoring
cycle, the explicit reset of the termination latch, and shutdown, which is
terminal and not taken while armed. -/
inductive Op
  | init_done
  | arm_command (env : ArmEnv) (calling_reason : arm_disarm_reason_t) (run_preflight_checks : Bool)
  | disarm_command (env : ArmEnv) (calling_reason : arm_disarm_reason_t) (forced : Bool)
  | monitoring_cycle (inp : CycleInput)
  | reset_termination
  | shutdown

/-- Modelled from the spec: the effect of one operation on the commander
state. -/
def step (cfg : Config) (s : State) : Op → State
  | Op.init_done =>
    if s.arming.arming_state = ArmingState.INIT then
      { s with arming := { s.arming with arming_state := ArmingState.STANDBY } }
    else s
  | Op.arm_command env calling_reason run_preflight_checks =>
    { s with arming := (arm cfg.arming env s.arming calling_reason run_preflight_checks).2 }
  | Op.disarm_command env calling_reason forced =>
    { s with arming := (disarm cfg.arming env s.arming calling_reason forced).2 }
  | Op.monitoring_cycle inp => cycle cfg s inp
  | Op.reset_termination => { s with _flight_termination_triggered := false }
  | Op.shutdown =>
    if s.arming.arming_state = ArmingState.ARMED then s
    else { s with arming := { s.arming with arming_state := ArmingState.SHUTDOWN } }

/-- The state after a sequence of operations. -/
def run (cfg : Config) (s : State) (ops : List Op) : State :=
  ops.foldl (step cfg) s

/-- Modelled from the spec: the time literal `_ms` of `time_literals`, which
`Commander.hpp` uses and does not define: a count of milliseconds as an
`hrt_abstime`, an unsigned 64-bit count of microseconds. -/
def ms_literal (time : Nat) : Nat :=
  (time * 1000) % 2 ^ 64

/-- The monitoring interval, `static constexpr uint64_t
COMMANDER_MONITORING_INTERVAL{10_ms}` in `Commander.hpp`. -/
def COMMANDER_MONITORING_INTERVAL : Nat := ms_literal 10

end Commander

/-! ## Simulator bridge: `task_spawn` -/

namespace SimulatorIgnitionBridge

/-- The status an `int`-returning module function reports: the values of the
macros `PX4_OK` and `PX4_ERROR`, which `SimulatorIgnitionBridge.cpp` uses and
does not define. -/
inductive Status
  | PX4_OK
  | PX4_ERROR
  deriving DecidableEq, Repr

/-- One line of the option table `print_usage` prints with
`PRINT_MODULE_USAGE_PARAM_STRING(option_char, default, values, description,
is_optional)`. -/
structure UsageParam where
  option_char : Char
  description : String
  is_optional : Bool
  deriving DecidableEq, Repr

/-- The options `print_usage` documents, in the order of its calls. -/
def print_usage_params : List UsageParam :=
  [{ option_char := 'm', description := "Model name", is_optional := false },
   { option_char := 'p', description := "Model Pose", is_optional := false },
   { option_char := 'w', description := "World name", is_optional := true }]

/-- One return of `px4_getopt(argc, argv, "w:m:p:", &myoptind, &myoptarg)`
other than `EOF`: the option character returned and the value of `myoptarg`
after the call (`none` is the null pointer).  `px4_getopt` is not part of
`SimulatorIgnitionBridge.cpp`; `task_spawn` is embedded over the sequence of
its returns up to `EOF`. -/
structure GetoptReturn where
  ch : Char
  myoptarg : Option String
  deriving DecidableEq, Repr

/-- The local variables of `task_spawn` that the option loop assigns; a
`const char *` is an optional string, `none` being the null pointer. -/
structure SpawnLocals where
  world_name : Option String
  model_name : Option String
  model_pose : Option String
  error_flag : Bool
  deriving DecidableEq, Repr

/-- The locals as `task_spawn` initialises them. -/
def SpawnLocals.initial : SpawnLocals :=
  { world_name := some "default", model_name := none, model_pose := none, error_flag := false }

/-- The body of the option loop of `task_spawn`: the `switch (ch)`. -/
def optionSwitch (l : SpawnLocals) (r : GetoptReturn) : SpawnLocals :=
  if r.ch = 'w' then { l with world_name := r.myoptarg }
  else if r.ch = 'm' then { l with model_name := r.myoptarg }
  else if r.ch = 'p' then { l with model_pose := r.myoptarg }
  else if r.ch = '?' then { l with error_flag := true }
  else { l with error_flag := true }

/-- The option loop of `task_spawn` over the returns of `px4_getopt`. -/
def optionLoop (returns : List GetoptReturn) : SpawnLocals :=
  returns.foldl optionSwitch SpawnLocals.initial

/-- The arguments of the expression `new SimulatorIgnitionBridge(world_name,
model_name, model_pose)`, each a `const char *`; `model_pose` is never null
there. -/
structure BridgeArgs where
  world : Option String
  model : Option String
  pose : String
  deriving DecidableEq, Repr

/-- The members the constructor `SimulatorIgnitionBridge(world, model,
pose_str)` initialises: `_world_name(world)`, `_model_name(model)`,
`_model_pose(pose_str)`. -/
structure Bridge where
  _world_name : String
  _model_name : String
  _model_pose : String
  deriving DecidableEq, Repr

/-- The constructor `SimulatorIgnitionBridge::SimulatorIgnitionBridge`: each
member is a `std::string` built from the pointer given, which C++ defines only
for a pointer that is not null; `none` stands for the undefined case. -/
def Bridge.construct (args : BridgeArgs) : Option Bridge :=
  match args.world, args.model with
  | some world, some model =>
    some { _world_name := world, _model_name := model, _model_pose := args.pose }
  | _, _ => none

/-- The module state `task_spawn` writes: the registered instance `_object` and
`_task_id`. -/
structure ModuleState where
  _object : Option Bridge
  _task_id : Int
  deriving DecidableEq, Repr

/-- What `task_spawn` depends on outside the file: whether `new` yields an object,
the status `init()` of that object returns, and the constant
`task_id_is_work_queue`. -/
structure SpawnEnv where
  alloc_succeeds : Bool
  init : Bridge → Status
  task_id_is_work_queue : Int

/-- The outcome of `task_spawn`: either it returns, with the returned status,
the arguments of the `new` expression when that was reached, and the module
state at return; or the `new` expression runs the constructor on a null
pointer and the behaviour is undefined. -/
inductive SpawnOutcome
  | returned (ret : Status) (requested : Option BridgeArgs) (module : ModuleState)
  | undefined (requested : BridgeArgs)
  deriving DecidableEq, Repr

/-- The arguments of the `new` expression, when `task_spawn` reached it. -/
def SpawnOutcome.requested : SpawnOutcome → Option BridgeArgs
  | SpawnOutcome.returned _ requested _ => requested
  | SpawnOutcome.undefined requested => some requested

/-- The function `SimulatorIgnitionBridge::task_spawn`, over the returns of
`px4_getopt`. -/
def task_spawn (env : SpawnEnv) (m : ModuleState) (returns : List GetoptReturn) : SpawnOutcome :=
  let l := optionLoop returns
  if l.error_flag then
    SpawnOutcome.returned Status.PX4_ERROR none m
  else
    let model_pose := match l.model_pose with
      | some pose => pose
      | none => ""
    let args : BridgeArgs := { world := l.world_name, model := l.model_name, pose := model_pose }
    if env.alloc_succeeds then
      match Bridge.construct args with
      | some inst =>
        if env.init inst = Status.PX4_OK then
          SpawnOutcome.returned Status.PX4_OK (some args)
            { _object := some inst, _task_id := env.task_id_is_work_queue }
        else
          SpawnOutcome.returned Status.PX4_ERROR (some args) { _object := none, _task_id := -1 }
      | none => SpawnOutcome.undefined args
    else
      SpawnOutcome.returned Status.PX4_ERROR (some args) { _object := none, _task_id := -1 }

/-- An option character is recognised when the `switch` of `task_spawn` has a
case for it that does not set `error_flag`. -/
def recognised (ch : Char) : Bool :=
  decide (ch = 'w') || decide (ch = 'm') || decide (ch = 'p')

/-- A module with no instance registered. -/
def noInstance : ModuleState := { _object := none, _task_id := -1 }

/-- An environment in which allocation and `init()` succeed. -/
def envInitOk : SpawnEnv :=
  { alloc_succeeds := true, init := fun _ => Status.PX4_OK, task_id_is_work_queue := -2 }

/-! ## Simulator bridge: `imuCallback` -/

/-- A quaternion of the ignition-math library, `Quaterniond(w, x, y, z)`, with
its components taken as exact rationals. -/
structure Quaterniond where
  qw : ℚ
  qx : ℚ
  qy : ℚ
  qz : ℚ
  deriving DecidableEq

/-- A vector of the ignition-math library, `Vector3d(x, y, z)`, with its
components taken as exact rationals. -/
structure Vector3d where
  x : ℚ
  y : ℚ
  z : ℚ
  deriving DecidableEq

/-- The quaternion product of ignition-math (`operator*`): the Hamilton
product. -/
def Quaterniond.mul (a b : Quaterniond) : Quaterniond :=
  { qw := a.qw * b.qw - a.qx * b.qx - a.qy * b.qy - a.qz * b.qz
    qx := a.qw * b.qx + a.qx * b.qw + a.qy * b.qz - a.qz * b.qy
    qy := a.qw * b.qy - a.qx * b.qz + a.qy * b.qw + a.qz * b.qx
    qz := a.qw * b.qz + a.qx * b.qy - a.qy * b.qx + a.qz * b.qw }

/-- The method `Quaterniond::Inverse` of ignition-math: the conjugate divided
by the squared norm, and the identity for the zero quaternion. -/
def Quaterniond.Inverse (q : Quaterniond) : Quaterniond :=
  let s := q.qw * q.qw + q.qx * q.qx + q.qy * q.qy + q.qz * q.qz
  if s = 0 then { qw := 1, qx := 0, qy := 0, qz := 0 }
  else { qw := q.qw / s, qx := -q.qx / s, qy := -q.qy / s, qz := -q.qz / s }

/-- The method `Quaterniond::RotateVector` of ignition-math: the vector part of
`q * (0, v) * q.Inverse()`. -/
def Quaterniond.RotateVector (q : Quaterniond) (v : Vector3d) : Vector3d :=
  let tmp : Quaterniond := { qw := 0, qx := v.x, qy := v.y, qz := v.z }
  let r := q.mul (tmp.mul q.Inverse)
  { x := r.qx, y := r.qy, z := r.qz }

/-- The constant `q_FLU_to_FRD = ignition::math::Quaterniond(0, 1, 0, 0)` of
`imuCallback`. -/
def q_FLU_to_FRD : Quaterniond := { qw := 0, qx := 1, qy := 0, qz := 0 }

/-- The fields of an `ignition::msgs::IMU` message that `imuCallback` reads:
the stamp of the header (a signed 64-bit second count and a signed 32-bit
nanosecond count) and the two vectors. -/
structure IMU where
  stamp_sec : Int
  stamp_nsec : Int
  linear_acceleration : Vector3d
  angular_velocity : Vector3d

/-- A published `sensor_accel_s` or `sensor_gyro_s` sample; the two have the
same fields.  A `temperature` of `none` is `NAN`. -/
structure SensorSample where
  timestamp_sample : Nat
  device_id : Nat
  x : ℚ
  y : ℚ
  z : ℚ
  temperature : Option ℚ
  samples : Nat
  timestamp : Nat
  deriving DecidableEq

/-- What the clock update depends on outside the file: whether
`px4_clock_settime` succeeds, and the helper `ts_to_abstime`. -/
structure ClockEnv where
  px4_clock_settime_ok : Bool
  ts_to_abstime : Nat → Nat → Nat

/-- The expression `(stamp.sec() * 1000000) + (stamp.nsec() / 1000)` stored in a
`uint64_t`: signed arithmetic with truncating division, then conversion to an
unsigned 64-bit value. -/
def stampToUs (sec nsec : Int) : Nat :=
  ((sec * 1000000 + Int.tdiv nsec 1000) % 2 ^ 64).toNat

/-- A signed value converted to the `uint64_t` parameter of `updateClock`. -/
def toUint64 (v : Int) : Nat :=
  (v % 2 ^ 64).toNat

/-- The function `SimulatorIgnitionBridge::updateClock`: the success flag and
the new value of `_world_time_us`. -/
def updateClock (env : ClockEnv) (_world_time_us tv_sec tv_nsec : Nat) : Bool × Nat :=
  if env.px4_clock_settime_ok then (true, env.ts_to_abstime tv_sec tv_nsec)
  else (false, _world_time_us)

/-- The effect of `imuCallback`: the value of `_world_time_us` afterwards and
the samples published on `_sensor_accel_pub` and `_sensor_gyro_pub`, if any. -/
structure ImuEffect where
  _world_time_us : Nat
  sensor_accel : Option SensorSample
  sensor_gyro : Option SensorSample

/-- The function `SimulatorIgnitionBridge::imuCallback`; `hrt_absolute_time` is
the system time at the call. -/
def imuCallback (env : ClockEnv) (hrt_absolute_time _world_time_us : Nat) (imu : IMU) :
    ImuEffect :=
  if hrt_absolute_time = 0 then
    { _world_time_us := _world_time_us, sensor_accel := none, sensor_gyro := none }
  else
    let time_us := stampToUs imu.stamp_sec imu.stamp_nsec
    let world_time :=
      if time_us > _world_time_us then
        (updateClock env _world_time_us (toUint64 imu.stamp_sec) (toUint64 imu.stamp_nsec)).2
      else _world_time_us
    let accel_b := q_FLU_to_FRD.RotateVector
      { x := imu.linear_acceleration.x, y := imu.linear_acceleration.y,
        z := imu.linear_acceleration.z }
    let sensor_accel : SensorSample :=
      { timestamp_sample := time_us, device_id := 1310988,
        x := accel_b.x, y := accel_b.y, z := accel_b.z,
        temperature := none, samples := 1, timestamp := time_us }
    let gyro_b := q_FLU_to_FRD.RotateVector
      { x := imu.angular_velocity.x, y := imu.angular_velocity.y,
        z := imu.angular_velocity.z }
    let sensor_gyro : SensorSample :=
      { timestamp_sample := time_us, device_id := 1310988,
        x := gyro_b.x, y := gyro_b.y, z := gyro_b.z,
        temperature := none, samples := 1, timestamp := time_us }
    { _world_time_us := world_time, sensor_accel := some sensor_accel,
      sensor_gyro := some sensor_gyro }

/-- A clock environment in which `px4_clock_settime` succeeds. -/
def exampleClockEnv : ClockEnv :=
  { px4_clock_settime_ok := true
    ts_to_abstime := fun tv_sec tv_nsec => tv_sec * 1000000 + tv_nsec / 1000 }

/-- An IMU message stamped 2.5 s with acceleration (1, 2, 3) and angular
velocity (4, 5, 6). -/
def exampleImu : IMU :=
  { stamp_sec := 2, stamp_nsec := 500000000
    linear_acceleration := { x := 1, y := 2, z := 3 }
    angular_velocity := { x := 4, y := 5, z := 6 } }

end SimulatorIgnitionBridge

/-! ## Simulator bridge: `poseInfoCallback` -/

namespace SimulatorIgnitionBridge

/-- The constant `q_ENU_to_NED = ignition::math::Quaterniond(0, 0.70711,
0.70711, 0)` of `poseInfoCallback`, the decimal literals taken exactly. -/
def q_ENU_to_NED : Quaterniond :=
  { qw := 0, qx := 70711 / 100000, qy := 70711 / 100000, qz := 0 }

/-- The fields of one `ignition::msgs::Pose` that `poseInfoCallback` reads; the
orientation is given as `Quaterniond(w, x, y, z)`. -/
structure Pose where
  name : String
  position : Vector3d
  orientation : Quaterniond

/-- The fields of an `ignition::msgs::Pose_V` message that `poseInfoCallback`
reads: the stamp of the header and the poses. -/
structure Pose_V where
  stamp_sec : Int
  stamp_nsec : Int
  pose : List Pose

/-- The helper `math::constrain(val, min, max)`, which
`SimulatorIgnitionBridge.cpp` uses and does not define: `val` limited to the
range from `min` to `max`. -/
def constrain (val min max : ℚ) : ℚ :=
  if val < min then min else if val > max then max else val

/-- The difference of two vectors (`operator-` of `matrix::Vector3d`). -/
def Vector3d.sub (a b : Vector3d) : Vector3d :=
  { x := a.x - b.x, y := a.y - b.y, z := a.z - b.z }

/-- A vector divided by a scalar (`operator/` of `matrix::Vector3d`). -/
def Vector3d.divScalar (a : Vector3d) (d : ℚ) : Vector3d :=
  { x := a.x / d, y := a.y / d, z := a.z / d }

/-- The expression `matrix::Vector3d position{pose_position.y(),
pose_position.x(), -pose_position.z()}` of `poseInfoCallback`, commented
"position ENU -> NED". -/
def positionENUtoNED (pose_position : Vector3d) : Vector3d :=
  { x := pose_position.y, y := pose_position.x, z := -pose_position.z }

/-- The reference of the map projection `_pos_ref`, once initialised: latitude,
longitude and the time of initialisation. -/
structure PosRef where
  lat : ℚ
  lon : ℚ
  timestamp : Nat
  deriving DecidableEq

/-- The members `poseInfoCallback` reads and writes. -/
structure PoseState where
  _world_time_us : Nat
  _timestamp_prev : Nat
  _euler_prev : Vector3d
  _position_prev : Vector3d
  _velocity_prev : Vector3d
  _pos_ref : Option PosRef

/-- What `poseInfoCallback` depends on outside the file: the clock, the
conversion of an attitude quaternion to Euler angles (`matrix::Eulerf`), the
reprojection of a local position to latitude and longitude
(`MapProjection::reproject`), and the home parameters. -/
structure PoseEnv where
  clock : ClockEnv
  euler : Quaterniond → Vector3d
  reproject : PosRef → ℚ → ℚ → ℚ × ℚ
  sim_home_lat : ℚ
  sim_home_lon : ℚ
  sim_home_alt : ℚ

/-- A published `vehicle_attitude_s`: the fields `poseInfoCallback` sets. -/
structure AttitudeSample where
  timestamp_sample : Nat
  q : Quaterniond
  timestamp : Nat

/-- A published `vehicle_angular_velocity_s`: the fields `poseInfoCallback`
sets. -/
structure AngularVelocitySample where
  timestamp_sample : Nat
  xyz : Vector3d
  timestamp : Nat

/-- A published `vehicle_local_position_s`: the fields `poseInfoCallback`
sets. -/
structure LocalPositionSample where
  timestamp_sample : Nat
  ax : ℚ
  ay : ℚ
  az : ℚ
  vx : ℚ
  vy : ℚ
  vz : ℚ
  x : ℚ
  y : ℚ
  z : ℚ
  ref_lat : ℚ
  ref_lon : ℚ
  ref_alt : ℚ
  ref_timestamp : Nat
  timestamp : Nat

/-- A published `vehicle_global_position_s`: the fields `poseInfoCallback`
sets. -/
structure GlobalPositionSample where
  timestamp_sample : Nat
  lat : ℚ
  lon : ℚ
  alt : ℚ
  timestamp : Nat

/-- The effect of `poseInfoCallback`: the members afterwards and the ground
truth samples published, if any. -/
structure PoseEffect where
  state : PoseState
  attitude : Option AttitudeSample
  angular_velocity : Option AngularVelocitySample
  local_position : Option LocalPositionSample
  global_position : Option GlobalPositionSample

/-- The function `SimulatorIgnitionBridge::poseInfoCallback`, for the bridge of
the model `_model_name`; `hrt_absolute_time` is the system time during the
call.  The first pose named as the model is handled and the others are
ignored. -/
def poseInfoCallback (env : PoseEnv) (_model_name : String) (hrt_absolute_time : Nat)
    (s : PoseState) (pose : Pose_V) : PoseEffect :=
  if hrt_absolute_time = 0 then
    { state := s, attitude := none, angular_velocity := none, local_position := none,
      global_position := none }
  else
    match pose.pose.find? (fun p => p.name == _model_name) with
    | none =>
      { state := s, attitude := none, angular_velocity := none, local_position := none,
        global_position := none }
    | some p =>
      let time_us := stampToUs pose.stamp_sec pose.stamp_nsec
      let world_time :=
        if time_us > s._world_time_us then
          (updateClock env.clock s._world_time_us (toUint64 pose.stamp_sec)
            (toUint64 pose.stamp_nsec)).2
        else s._world_time_us
      let elapsed : Nat := (time_us + 2 ^ 64 - s._timestamp_prev) % 2 ^ 64
      let dt := constrain ((elapsed : ℚ) / 1000000) (1 / 1000) (1 / 10)
      let pose_position := p.position
      let q_gr := p.orientation
      let q_gb := q_gr.mul q_FLU_to_FRD.Inverse
      let q_nb := q_ENU_to_NED.mul q_gb
      let attitude : AttitudeSample :=
        { timestamp_sample := time_us, q := q_nb, timestamp := hrt_absolute_time }
      let euler := env.euler q_nb
      let angular_velocity := (euler.sub s._euler_prev).divScalar dt
      let rates : AngularVelocitySample :=
        { timestamp_sample := time_us, xyz := angular_velocity, timestamp := hrt_absolute_time }
      let pos_ref : PosRef := match s._pos_ref with
        | some r => r
        | none =>
          { lat := env.sim_home_lat, lon := env.sim_home_lon, timestamp := hrt_absolute_time }
      let position := positionENUtoNED pose_position
      let velocity := (position.sub s._position_prev).divScalar dt
      let acceleration := (velocity.sub s._velocity_prev).divScalar dt
      let lpos : LocalPositionSample :=
        { timestamp_sample := time_us
          ax := acceleration.x, ay := acceleration.y, az := acceleration.z
          vx := velocity.x, vy := velocity.y, vz := velocity.z
          x := position.x, y := position.y, z := position.z
          ref_lat := pos_ref.lat, ref_lon := pos_ref.lon, ref_alt := env.sim_home_alt
          ref_timestamp := pos_ref.timestamp
          timestamp := hrt_absolute_time }
      let latlon := env.reproject pos_ref lpos.x lpos.y
      let gpos : GlobalPositionSample :=
        { timestamp_sample := time_us, lat := latlon.1, lon := latlon.2
          alt := env.sim_home_alt - position.z, timestamp := hrt_absolute_time }
      { state :=
          { _world_time_us := world_time, _timestamp_prev := time_us, _euler_prev := euler
            _position_prev := position, _velocity_prev := velocity, _pos_ref := some pos_ref }
        attitude := some attitude
        angular_velocity := some rates
        local_position := some lpos
        global_position := some gpos }

/-- An environment for `poseInfoCallback`: the clock of `exampleClockEnv`, home
at latitude 47, longitude 8, altitude 488. -/
def examplePoseEnv : PoseEnv :=
  { clock := exampleClockEnv
    euler := fun _ => { x := 0, y := 0, z := 0 }
    reproject := fun r x y => (r.lat + x, r.lon + y)
    sim_home_lat := 47, sim_home_lon := 8, sim_home_alt := 488 }

/-- The members before the first pose message. -/
def examplePoseState : PoseState :=
  { _world_time_us := 0, _timestamp_prev := 0
    _euler_prev := { x := 0, y := 0, z := 0 }
    _position_prev := { x := 0, y := 0, z := 0 }
    _velocity_prev := { x := 0, y := 0, z := 0 }
    _pos_ref := none }

/-- A pose message stamped 2.5 s with the poses of a ground plane and of the
model "x500", the latter at the ENU position (1, 2, 3). -/
def examplePoseV : Pose_V :=
  { stamp_sec := 2, stamp_nsec := 500000000
    pose :=
      [{ name := "ground_plane", position := { x := 0, y := 0, z := 0 },
         orientation := { qw := 1, qx := 0, qy := 0, qz := 0 } },
       { name := "x500", position := { x := 1, y := 2, z := 3 },
         orientation := { qw := 1, qx := 0, qy := 0, qz := 0 } }] }

end SimulatorIgnitionBridge

/-! ## Concrete configurations used as examples -/

namespace Commander

/-- A configuration in which every category is required, the interlock is
enabled, reason 13 is a whitelisted override that bypasses check 7, and reason 9
is always allowed to disarm. -/
def exampleConfig : Config :=
  { arming :=
      { required := fun _ => true
        bypass := fun reason id => decide (reason = 13 ∧ id = 7)
        interlock_enabled := true
        always_allowed_disarm := fun reason => decide (reason = 9) }
    link := exampleLinkConfig }

/-- The commander after initialisation: the arming state is STANDBY. -/
def exampleStandby : State := step exampleConfig State.initial Op.init_done

/-- A moment at which the non-critical check 7 of the mission category fails,
the safety switch permits arming, and the vehicle is landed. -/
def exampleEnvCheckFails : ArmEnv :=
  { checks := [{ id := 7, category := Category.mission, pass := false, critical := false }]
    safety_permits := true
    landed := true }

/-- A moment at which all checks pass, the safety switch permits arming, and
the vehicle is airborne. -/
def exampleEnvAirborne : ArmEnv :=
  { checks := [{ id := 7, category := Category.mission, pass := true, critical := false }]
    safety_permits := true
    landed := false }

/-- The commander armed with reason 1 from `exampleStandby`. -/
def exampleArmed : State :=
  step exampleConfig exampleStandby (Op.arm_command exampleEnvAirborne 1 true)

/-- A monitoring cycle in which the failure detector reports a condition whose
action is terminate. -/
def exampleCycleTerminate : CycleInput :=
  { now := 10000
    heartbeat := fun _ => true
    conditions := [{ active := true, action := FailsafeAction.TERMINATE }] }

/-- A monitoring cycle in which every condition has recovered. -/
def exampleCycleNominal : CycleInput :=
  { now := 20000
    heartbeat := fun _ => true
    conditions := [{ active := false, action := FailsafeAction.TERMINATE }] }

end Commander

/-! ## Theorems -/

namespace Commander

/-! ### Arming -/

end Commander

namespace Commander

/-- C2.  In every state in which the vehicle is ARMED and not landed, `disarm`
with `forced = false` and a reason outside the always-allowed set is denied and
changes nothing: both when called directly (with the second argument omitted or
given as `false`) and as a disarm command to the commander, after which the
arming state is still ARMED. -/
theorem disarm_airborne_denied (cfg : Config) (env : ArmEnv) (s : State)
    (reason : arm_disarm_reason_t)
    (harmed : s.arming.arming_state = ArmingState.ARMED)
    (hair : env.landed = false)
    (hreason : cfg.arming.always_allowed_disarm reason = false) :
    disarm cfg.arming env s.arming reason false = (transition_result_t.DENIED, s.arming) ∧
    disarm cfg.arming env s.arming reason = (transition_result_t.DENIED, s.arming) ∧
    (step cfg s (Op.disarm_command env reason false)).arming.arming_state
      = ArmingState.ARMED := by
  have h : disarm cfg.arming env s.arming reason false
      = (transition_result_t.DENIED, s.arming) := by
    unfold disarm
    simp [harmed, hair, hreason]
  refine ⟨h, h, ?_⟩
  simp only [step]
  rw [h]
  exact harmed

/-- Witness of C2: the armed, airborne commander of the examples and reason 1. -/
theorem disarm_airborne_denied_witness :
    exampleArmed.arming.arming_state = ArmingState.ARMED ∧
    exampleEnvAirborne.landed = false ∧
    exampleConfig.arming.always_allowed_disarm 1 = false ∧
    disarm exampleConfig.arming exampleEnvAirborne exampleArmed.arming 1 false
      = (transition_result_t.DENIED, exampleArmed.arming) ∧
    disarm exampleConfig.arming exampleEnvAirborne exampleArmed.arming 1
      = (transition_result_t.DENIED, exampleArmed.arming) ∧
    (step exampleConfig exampleArmed
      (Op.disarm_command exampleEnvAirborne 1 false)).arming.arming_state
      = ArmingState.ARMED :=
  ⟨by decide, by decide, by decide,
    disarm_airborne_denied exampleConfig exampleEnvAirborne exampleArmed 1
      (by decide) (by decide) (by decide)⟩

/-- C6.  `arm(reason)` without its second argument is
`arm(reason, run_preflight_checks = true)` and `disarm(reason)` without its
second argument is `disarm(reason, forced = false)`.  The defaults matter: with
a failing check an arm call that omits the argument is denied where the same
call with `false` is accepted, and an airborne disarm call that omits the
argument is denied where the same call with `true` is accepted. -/
theorem arm_disarm_default_arguments :
    (∀ (cfg : ArmConfig) (env : ArmEnv) (s : ArmState) (reason : arm_disarm_reason_t),
      arm cfg env s reason = arm cfg env s reason true) ∧
    (∀ (cfg : ArmConfig) (env : ArmEnv) (s : ArmState) (reason : arm_disarm_reason_t),
      disarm cfg env s reason = disarm cfg env s reason false) ∧
    (arm exampleConfig.arming exampleEnvCheckFails exampleStandby.arming 1).1
      = transition_result_t.DENIED ∧
    (arm exampleConfig.arming exampleEnvCheckFails exampleStandby.arming 1 false).1
      = transition_result_t.ACCEPTED ∧
    (disarm exampleConfig.arming exampleEnvAirborne exampleArmed.arming 1).1
      = transition_result_t.DENIED ∧
    (disarm exampleConfig.arming exampleEnvAirborne exampleArmed.arming 1 true).1
      = transition_result_t.ACCEPTED :=
  ⟨fun _ _ _ _ => rfl, fun _ _ _ _ => rfl, by decide, by decide, by decide, by decide⟩

/-! ### Failsafe arbitration -/

theorem moreSevere_right_comm (a b c : FailsafeAction) :
    FailsafeAction.moreSevere (FailsafeAction.moreSevere a b) c
      = FailsafeAction.moreSevere (FailsafeAction.moreSevere a c) b := by
  cases a <;> cases b <;> cases c <;> rfl

theorem severity_le_moreSevere_left (a b : FailsafeAction) :
    a.severity ≤ (FailsafeAction.moreSevere a b).severity := by
  cases a <;> cases b <;> decide

theorem severity_le_moreSevere_right (a b : FailsafeAction) :
    b.severity ≤ (FailsafeAction.moreSevere a b).severity := by
  cases a <;> cases b <;> decide

theorem moreSevere_eq_or (a b : FailsafeAction) :
    FailsafeAction.moreSevere a b = a ∨ FailsafeAction.moreSevere a b = b := by
  cases a <;> cases b <;> decide

theorem arbitrateFrom_ge_init (cs : List FailsafeCondition) :
    ∀ init, init.severity ≤ (arbitrateFrom init cs).severity := by
  induction cs with
  | nil => intro init; exact Nat.le_refl _
  | cons c cs ih =>
    intro init
    simp only [arbitrateFrom, List.foldl_cons]
    by_cases hc : c.active = true
    · rw [if_pos hc]
      exact Nat.le_trans (severity_le_moreSevere_left init c.action) (ih _)
    · rw [if_neg hc]
      exact ih init

theorem arbitrateFrom_ge_active (cs : List FailsafeCondition) :
    ∀ init, ∀ c ∈ cs, c.active = true →
      c.action.severity ≤ (arbitrateFrom init cs).severity := by
  induction cs with
  | nil => intro init c hc; cases hc
  | cons d cs ih =>
    intro init c hc hact
    simp only [arbitrateFrom, List.foldl_cons]
    rcases List.mem_cons.mp hc with rfl | hmem
    · rw [if_pos hact]
      exact Nat.le_trans (severity_le_moreSevere_right init c.action)
        (arbitrateFrom_ge_init cs _)
    · exact ih _ c hmem hact

theorem arbitrateFrom_mem (cs : List FailsafeCondition) :
    ∀ init, arbitrateFrom init cs = init ∨
      ∃ c ∈ cs, c.active = true ∧ c.action = arbitrateFrom init cs := by
  induction cs with
  | nil => intro init; exact Or.inl rfl
  | cons d cs ih =>
    intro init
    simp only [arbitrateFrom, List.foldl_cons]
    by_cases hd : d.active = true
    · rw [if_pos hd]
      rcases ih (FailsafeAction.moreSevere init d.action) with h | ⟨c, hc, hact, heq⟩
      · rcases moreSevere_eq_or init d.action with h2 | h2
        · left
          exact h.trans h2
        · right
          exact ⟨d, List.mem_cons_self _ _, hd, (h.trans h2).symm⟩
      · right
        exact ⟨c, List.mem_cons_of_mem _ hc, hact, heq⟩
    · rw [if_neg hd]
      rcases ih init with h | ⟨c, hc, hact, heq⟩
      · exact Or.inl h
      · right
        exact ⟨c, List.mem_cons_of_mem _ hc, hact, heq⟩

/-- C3.  For every finite collection of failsafe conditions the arbitrated
action is the maximum of the configured actions of the active ones under the
fixed order terminate > land > return > hold > warn > none: it is at least as
severe as the action of every active condition, it is the action of one of
them (or none when no condition is active), and it is the same for every
permutation of the collection.  A hold-configured condition together with a
terminate-configured one yields terminate, in either order, also when
terminate is the actuator-failure setting; land outranks return, although the
actuator-failure setting for return has the larger numeric value. -/
theorem arbitrate_is_maximum :
    (FailsafeAction.NONE.severity < FailsafeAction.WARN.severity ∧
      FailsafeAction.WARN.severity < FailsafeAction.HOLD.severity ∧
      FailsafeAction.HOLD.severity < FailsafeAction.RETURN.severity ∧
      FailsafeAction.RETURN.severity < FailsafeAction.LAND.severity ∧
      FailsafeAction.LAND.severity < FailsafeAction.TERMINATE.severity) ∧
    (∀ a b : FailsafeAction, a.severity = b.severity → a = b) ∧
    (∀ cs : List FailsafeCondition, ∀ c ∈ cs, c.active = true →
      c.action.severity ≤ (arbitrate cs).severity) ∧
    (∀ cs : List FailsafeCondition,
      (arbitrate cs = FailsafeAction.NONE ∧ ∀ c ∈ cs, c.active = true →
          c.action = FailsafeAction.NONE) ∨
        ∃ c ∈ cs, c.active = true ∧ c.action = arbitrate cs) ∧
    (∀ cs cs2 : List FailsafeCondition, cs.Perm cs2 → arbitrate cs = arbitrate cs2) ∧
    arbitrate [{ active := true, action := FailsafeAction.HOLD },
               { active := true, action := FailsafeAction.TERMINATE }]
      = FailsafeAction.TERMINATE ∧
    arbitrate [{ active := true, action := FailsafeAction.TERMINATE },
               { active := true, action := FailsafeAction.HOLD }]
      = FailsafeAction.TERMINATE ∧
    arbitrate [{ active := true, action := FailsafeAction.HOLD },
               { active := true, action := ActuatorFailureActions.TERMINATE.toAction }]
      = FailsafeAction.TERMINATE ∧
    (ActuatorFailureActions.AUTO_LAND.toNat < ActuatorFailureActions.AUTO_RTL.toNat ∧
      arbitrate [{ active := true, action := ActuatorFailureActions.AUTO_LAND.toAction },
                 { active := true, action := ActuatorFailureActions.AUTO_RTL.toAction }]
        = FailsafeAction.LAND) := by
  refine ⟨by decide, ?_, ?_, ?_, ?_, by decide, by decide, by decide, by decide⟩
  · intro a b h
    cases a <;> cases b <;> first | rfl | (exact absurd h (by decide))
  · intro cs c hc hact
    exact arbitrateFrom_ge_active cs FailsafeAction.NONE c hc hact
  · intro cs
    rcases arbitrateFrom_mem cs FailsafeAction.NONE with h | h
    · left
      refine ⟨h, ?_⟩
      intro c hc hact
      have hle := arbitrateFrom_ge_active cs FailsafeAction.NONE c hc hact
      rw [h] at hle
      cases hca : c.action <;> rw [hca] at hle <;> first | rfl | (exact absurd hle (by decide))
    · exact Or.inr h
  · intro cs cs2 hp
    unfold arbitrate arbitrateFrom
    apply List.Perm.foldl_eq' hp
    intro x _ y _ z
    by_cases hx : x.active = true <;> by_cases hy : y.active = true <;>
      simp only [hx, hy, if_true, if_false]
    · exact moreSevere_right_comm z x.action y.action
    · simp
    · simp
    · simp

end Commander

namespace Commander

/-! ### Termination latch -/

theorem step_keeps_termination (cfg : Config) (s : State) (op : Op)
    (h : s._flight_termination_triggered = true) (hop : op ≠ Op.reset_termination) :
    (step cfg s op)._flight_termination_triggered = true := by
  cases op with
  | init_done =>
    simp only [step]
    split <;> exact h
  | arm_command env reason flag => exact h
  | disarm_command env reason forced => exact h
  | monitoring_cycle inp =>
    simp only [step, cycle, h, Bool.true_or]
  | reset_termination => exact absurd rfl hop
  | shutdown =>
    simp only [step]
    split <;> exact h

theorem run_keeps_termination (cfg : Config) (ops : List Op) :
    ∀ s : State, s._flight_termination_triggered = true →
      (∀ op ∈ ops, op ≠ Op.reset_termination) →
      (run cfg s ops)._flight_termination_triggered = true := by
  induction ops with
  | nil => intro s h _; exact h
  | cons op ops ih =>
    intro s h hno
    simp only [run, List.foldl_cons]
    exact ih (step cfg s op)
      (step_keeps_termination cfg s op h (hno op (List.mem_cons_self _ _)))
      (fun o ho => hno o (List.mem_cons_of_mem _ ho))

/-- C4.  Once flight termination has been latched, it stays latched after
every sequence of operations that holds no reset command, whatever the inputs
of the monitoring cycles in it are, and every further monitoring cycle selects
terminate; only the explicit reset command clears the latch. -/
theorem termination_stays_latched (cfg : Config) (s : State) (ops : List Op)
    (hlatched : s._flight_termination_triggered = true)
    (hnoreset : ∀ op ∈ ops, op ≠ Op.reset_termination) :
    (run cfg s ops)._flight_termination_triggered = true ∧
    (∀ inp : CycleInput,
      (step cfg (run cfg s ops) (Op.monitoring_cycle inp))._flight_termination_triggered = true ∧
      (step cfg (run cfg s ops) (Op.monitoring_cycle inp)).selected_action
        = FailsafeAction.TERMINATE) ∧
    (step cfg (run cfg s ops) Op.reset_termination)._flight_termination_triggered = false := by
  have h := run_keeps_termination cfg ops s hlatched hnoreset
  refine ⟨h, ?_, rfl⟩
  intro inp
  simp only [step, cycle, h, Bool.true_or, if_true, and_self]

/-- Witness of C4: termination is latched by a cycle with a terminate
condition and survives a cycle in which every condition has recovered, a
disarm command and an arm command. -/
theorem termination_stays_latched_witness :
    (step exampleConfig exampleArmed
      (Op.monitoring_cycle exampleCycleTerminate))._flight_termination_triggered = true ∧
    (∀ op ∈ [Op.monitoring_cycle exampleCycleNominal,
             Op.disarm_command exampleEnvCheckFails 1 false,
             Op.arm_command exampleEnvAirborne 1 true], op ≠ Op.reset_termination) ∧
    (run exampleConfig
      (step exampleConfig exampleArmed (Op.monitoring_cycle exampleCycleTerminate))
      [Op.monitoring_cycle exampleCycleNominal, Op.disarm_command exampleEnvCheckFails 1 false,
       Op.arm_command exampleEnvAirborne 1 true])._flight_termination_triggered = true :=
  ⟨by decide, by simp,
    (termination_stays_latched exampleConfig
      (step exampleConfig exampleArmed (Op.monitoring_cycle exampleCycleTerminate))
      [Op.monitoring_cycle exampleCycleNominal, Op.disarm_command exampleEnvCheckFails 1 false,
       Op.arm_command exampleEnvAirborne 1 true]
      (by decide) (by simp)).1⟩

/-! ### Monitoring interval -/

/-- C7.  The monitoring cycle period `COMMANDER_MONITORING_INTERVAL` is 10 ms:
exactly 10000 microseconds, a value of the unsigned 64-bit microsecond time
unit, and one hundredth of a second. -/
theorem monitoring_interval_is_10000_us :
    COMMANDER_MONITORING_INTERVAL = 10000 ∧
    COMMANDER_MONITORING_INTERVAL < 2 ^ 64 ∧
    100 * COMMANDER_MONITORING_INTERVAL = SECOND_US := by
  refine ⟨by decide, by decide, by decide⟩

end Commander

namespace Commander

/-! ### Data-link monitor -/

theorem update_present_since_of_present (cfg : LinkConfig) (m : LinkMonitor) (now : Nat)
    (hb : Bool) (h : (LinkMonitor.update cfg m now hb).lost = false) :
    (LinkMonitor.update cfg m now hb).present_since = none := by
  unfold LinkMonitor.update at h ⊢
  cases hps : m.present_since <;> cases hb <;> simp only [hps, if_true, Bool.false_eq_true,
    if_false] at h ⊢ <;> split_ifs at h ⊢ <;> simp_all

end Commander

namespace SimulatorIgnitionBridge

/-! ### Option handling of `task_spawn` -/

theorem optionSwitch_error_flag_of_recognised (l : SpawnLocals) (r : GetoptReturn)
    (h : recognised r.ch = true) : (optionSwitch l r).error_flag = l.error_flag := by
  unfold optionSwitch
  simp only [recognised, Bool.or_eq_true, decide_eq_true_eq] at h
  split_ifs <;> first | rfl | (exfalso; tauto)

theorem optionSwitch_error_flag_of_unrecognised (l : SpawnLocals) (r : GetoptReturn)
    (h : recognised r.ch = false) : (optionSwitch l r).error_flag = true := by
  unfold optionSwitch
  simp only [recognised, Bool.or_eq_false_iff, decide_eq_false_iff_not] at h
  obtain ⟨⟨hw, hm⟩, hp⟩ := h
  rw [if_neg hw, if_neg hm, if_neg hp]
  split_ifs <;> rfl

theorem optionSwitch_error_flag_mono (l : SpawnLocals) (r : GetoptReturn)
    (h : l.error_flag = true) : (optionSwitch l r).error_flag = true := by
  unfold optionSwitch
  split_ifs <;> first | exact h | rfl

theorem optionSwitch_world_name (l : SpawnLocals) (r : GetoptReturn) (h : r.ch ≠ 'w') :
    (optionSwitch l r).world_name = l.world_name := by
  unfold optionSwitch
  rw [if_neg h]
  split_ifs <;> rfl

theorem optionSwitch_model_name (l : SpawnLocals) (r : GetoptReturn) (h : r.ch ≠ 'm') :
    (optionSwitch l r).model_name = l.model_name := by
  unfold optionSwitch
  split_ifs <;> rfl

theorem foldl_error_flag_mono (returns : List GetoptReturn) :
    ∀ l : SpawnLocals, l.error_flag = true →
      (returns.foldl optionSwitch l).error_flag = true := by
  induction returns with
  | nil => intro l h; exact h
  | cons r rs ih =>
    intro l h
    exact ih _ (optionSwitch_error_flag_mono l r h)

theorem foldl_error_flag_of_unrecognised (returns : List GetoptReturn) :
    ∀ l : SpawnLocals, (∃ r ∈ returns, recognised r.ch = false) →
      (returns.foldl optionSwitch l).error_flag = true := by
  induction returns with
  | nil => intro l h; obtain ⟨r, hr, _⟩ := h; cases hr
  | cons r rs ih =>
    intro l h
    obtain ⟨x, hx, hun⟩ := h
    rcases List.mem_cons.mp hx with rfl | hmem
    · exact foldl_error_flag_mono rs _ (optionSwitch_error_flag_of_unrecognised l x hun)
    · exact ih _ ⟨x, hmem, hun⟩

theorem foldl_error_flag_of_recognised (returns : List GetoptReturn) :
    ∀ l : SpawnLocals, (∀ r ∈ returns, recognised r.ch = true) →
      (returns.foldl optionSwitch l).error_flag = l.error_flag := by
  induction returns with
  | nil => intro l _; rfl
  | cons r rs ih =>
    intro l h
    simp only [List.foldl_cons]
    rw [ih _ (fun x hx => h x (List.mem_cons_of_mem _ hx))]
    exact optionSwitch_error_flag_of_recognised l r (h r (List.mem_cons_self _ _))

theorem foldl_world_name (returns : List GetoptReturn) :
    ∀ l : SpawnLocals, (∀ r ∈ returns, r.ch ≠ 'w') →
      (returns.foldl optionSwitch l).world_name = l.world_name := by
  induction returns with
  | nil => intro l _; rfl
  | cons r rs ih =>
    intro l h
    simp only [List.foldl_cons]
    rw [ih _ (fun x hx => h x (List.mem_cons_of_mem _ hx))]
    exact optionSwitch_world_name l r (h r (List.mem_cons_self _ _))

theorem foldl_model_name (returns : List GetoptReturn) :
    ∀ l : SpawnLocals, (∀ r ∈ returns, r.ch ≠ 'm') →
      (returns.foldl optionSwitch l).model_name = l.model_name := by
  induction returns with
  | nil => intro l _; rfl
  | cons r rs ih =>
    intro l h
    simp only [List.foldl_cons]
    rw [ih _ (fun x hx => h x (List.mem_cons_of_mem _ hx))]
    exact optionSwitch_model_name l r (h r (List.mem_cons_self _ _))

theorem task_spawn_requested (env : SpawnEnv) (m : ModuleState) (returns : List GetoptReturn)
    (h : (optionLoop returns).error_flag = false) :
    ∃ args, (task_spawn env m returns).requested = some args ∧
      args.world = (optionLoop returns).world_name ∧
      args.model = (optionLoop returns).model_name ∧
      (env.alloc_succeeds = true → Bridge.construct args = none →
        task_spawn env m returns = SpawnOutcome.undefined args) ∧
      (∀ inst, env.alloc_succeeds = true → Bridge.construct args = some inst →
        env.init inst = Status.PX4_OK →
        task_spawn env m returns = SpawnOutcome.returned Status.PX4_OK (some args)
          { _object := some inst, _task_id := env.task_id_is_work_queue }) ∧
      (∀ inst, env.alloc_succeeds = true → Bridge.construct args = some inst →
        env.init inst ≠ Status.PX4_OK →
        task_spawn env m returns = SpawnOutcome.returned Status.PX4_ERROR (some args)
          { _object := none, _task_id := -1 }) := by
  unfold task_spawn
  simp only [h, Bool.false_eq_true, if_false]
  by_cases ha : env.alloc_succeeds = true
  · simp only [ha, if_true]
    split
    · rename_i inst hc
      split_ifs with hi
      · refine ⟨_, rfl, rfl, rfl, fun _ hn => ?_, fun i _ hs _ => ?_, fun i _ hs hno => ?_⟩
        · rw [hc] at hn; cases hn
        · rw [hc] at hs; cases hs; rfl
        · rw [hc] at hs; cases hs; exact absurd hi hno
      · refine ⟨_, rfl, rfl, rfl, fun _ hn => ?_, fun i _ hs hok => ?_, fun i _ hs _ => ?_⟩
        · rw [hc] at hn; cases hn
        · rw [hc] at hs; cases hs; exact absurd hok hi
        · rfl
    · rename_i hc
      refine ⟨_, rfl, rfl, rfl, fun _ _ => rfl, fun i _ hs _ => ?_, fun i _ hs _ => ?_⟩
      · rw [hc] at hs; cases hs
      · rw [hc] at hs; cases hs
  · simp only [ha, Bool.false_eq_true, if_false]
    exact ⟨_, rfl, rfl, rfl, fun h1 => h1.elim, fun _ h1 => h1.elim, fun _ h1 => h1.elim⟩

end SimulatorIgnitionBridge

namespace SimulatorIgnitionBridge

/-- C8, evaluated on the code.  The usage text documents `-m` as not optional,
yet `task_spawn` does not reject an argument list without it: when
`px4_getopt` returns no option at all (or only `-w`), no error is flagged and
the `new` expression is reached with a null `model_name`, from which the
constructor builds `_model_name`: undefined behaviour instead of the return of
`PX4_ERROR`.  The same holds for every sequence of options without `-m` and
without an unrecognised one, whenever the allocation succeeds. -/
theorem task_spawn_accepts_missing_model :
    (∃ u ∈ print_usage_params, u.option_char = 'm' ∧ u.is_optional = false) ∧
    task_spawn envInitOk noInstance [] =
      SpawnOutcome.undefined { world := some "default", model := none, pose := "" } ∧
    task_spawn envInitOk noInstance [{ ch := 'w', myoptarg := some "lawn" }] =
      SpawnOutcome.undefined { world := some "lawn", model := none, pose := "" } ∧
    (∀ (env : SpawnEnv) (m : ModuleState) (returns : List GetoptReturn),
      env.alloc_succeeds = true →
      (∀ r ∈ returns, r.ch = 'w' ∨ r.ch = 'p') →
      ∃ args, task_spawn env m returns = SpawnOutcome.undefined args ∧ args.model = none) := by
  refine ⟨by decide, by decide, by decide, ?_⟩
  intro env m returns halloc h
  have hrec : ∀ r ∈ returns, recognised r.ch = true := by
    intro r hr
    rcases h r hr with h1 | h1 <;> rw [h1] <;> decide
  have hm : ∀ r ∈ returns, r.ch ≠ 'm' := by
    intro r hr
    rcases h r hr with h1 | h1 <;> rw [h1] <;> decide
  have herr : (optionLoop returns).error_flag = false :=
    foldl_error_flag_of_recognised returns SpawnLocals.initial hrec
  obtain ⟨args, _, _, h3, h4, _⟩ := task_spawn_requested env m returns herr
  have hnone : args.model = none := by
    rw [h3]
    exact foldl_model_name returns SpawnLocals.initial hm
  refine ⟨args, h4 halloc ?_, hnone⟩
  unfold Bridge.construct
  rw [hnone]
  cases args.world <;> rfl

theorem foldl_model_name_some (returns : List GetoptReturn) :
    ∀ l : SpawnLocals, (∀ r ∈ returns, r.ch = 'm' → r.myoptarg ≠ none) →
      (l.model_name ≠ none ∨ ∃ r ∈ returns, r.ch = 'm') →
      (returns.foldl optionSwitch l).model_name ≠ none := by
  induction returns with
  | nil =>
    intro l _ h
    rcases h with h | ⟨r, hr, _⟩
    · exact h
    · cases hr
  | cons x xs ih =>
    intro l harg h
    simp only [List.foldl_cons]
    apply ih _ (fun r hr => harg r (List.mem_cons_of_mem _ hr))
    by_cases hx : x.ch = 'm'
    · left
      have hw : x.ch ≠ 'w' := by rw [hx]; decide
      simp only [optionSwitch, if_neg hw, if_pos hx]
      exact harg x (List.mem_cons_self _ _) hx
    · rw [optionSwitch_model_name l x hx]
      rcases h with h | ⟨r, hr, hm⟩
      · exact Or.inl h
      · rcases List.mem_cons.mp hr with rfl | hmem
        · exact absurd hm hx
        · exact Or.inr ⟨r, hmem, hm⟩

/-- C9, as amended.  The usage text documents `-w` as optional, and
`task_spawn` treats it so.  For every sequence of recognised options in which
`-m` gives a model name and which holds no `-w`, the `new` expression is
reached with world name "default" and the constructor builds from its
arguments a bridge whose world name is "default"; with the allocation
succeeding `task_spawn` registers that bridge and returns `PX4_OK` if `init()`
succeeds, and returns `PX4_ERROR` with no bridge registered if it fails.  For every
sequence holding an unrecognised option `task_spawn` returns `PX4_ERROR`
without reaching the `new` expression, leaving the module state as it was. -/
theorem task_spawn_world_default (env : SpawnEnv) (m : ModuleState)
    (returns : List GetoptReturn) :
    (∃ u ∈ print_usage_params, u.option_char = 'w' ∧ u.is_optional = true) ∧
    ((∀ r ∈ returns, recognised r.ch = true ∧ r.ch ≠ 'w') →
      (∃ r ∈ returns, r.ch = 'm') →
      (∀ r ∈ returns, r.ch = 'm' → r.myoptarg ≠ none) →
      ∃ args model,
        (task_spawn env m returns).requested = some args ∧
        args.world = some "default" ∧ args.model = some model ∧
        Bridge.construct args
          = some { _world_name := "default", _model_name := model, _model_pose := args.pose } ∧
        (env.alloc_succeeds = true →
          task_spawn env m returns =
            if env.init { _world_name := "default", _model_name := model,
                          _model_pose := args.pose } = Status.PX4_OK then
              SpawnOutcome.returned Status.PX4_OK (some args)
                { _object := some { _world_name := "default", _model_name := model,
                                    _model_pose := args.pose },
                  _task_id := env.task_id_is_work_queue }
            else
              SpawnOutcome.returned Status.PX4_ERROR (some args)
                { _object := none, _task_id := -1 })) ∧
    ((∃ r ∈ returns, recognised r.ch = false) →
      task_spawn env m returns = SpawnOutcome.returned Status.PX4_ERROR none m) := by
  refine ⟨by decide, ?_, ?_⟩
  · intro h hm harg
    have herr : (optionLoop returns).error_flag = false :=
      foldl_error_flag_of_recognised returns SpawnLocals.initial (fun r hr => (h r hr).1)
    obtain ⟨args, h1, h2, h3, _, h5, h6⟩ := task_spawn_requested env m returns herr
    have hw : args.world = some "default" := by
      rw [h2]
      exact foldl_world_name returns SpawnLocals.initial (fun r hr => (h r hr).2)
    have hmod : args.model ≠ none := by
      rw [h3]
      exact foldl_model_name_some returns SpawnLocals.initial harg (Or.inr hm)
    obtain ⟨model, hmodel⟩ := Option.ne_none_iff_exists'.mp hmod
    have hb : Bridge.construct args
        = some { _world_name := "default", _model_name := model, _model_pose := args.pose } := by
      unfold Bridge.construct
      rw [hw, hmodel]
    refine ⟨args, model, h1, hw, hmodel, hb, fun halloc => ?_⟩
    split_ifs with hi
    · exact h5 _ halloc hb hi
    · exact h6 _ halloc hb hi
  · intro h
    have herr : (optionLoop returns).error_flag = true :=
      foldl_error_flag_of_unrecognised returns SpawnLocals.initial h
    unfold task_spawn
    simp only [herr, if_true]

/-- Witness of C9 as amended: `-m x500 -p 0,0,1` constructs and registers the
bridge in world "default", and `-m x500 -z` is rejected. -/
theorem task_spawn_world_default_witness :
    (∀ r ∈ [({ ch := 'm', myoptarg := some "x500" } : GetoptReturn),
            { ch := 'p', myoptarg := some "0,0,1" }], recognised r.ch = true ∧ r.ch ≠ 'w') ∧
    (∃ r ∈ [({ ch := 'm', myoptarg := some "x500" } : GetoptReturn),
            { ch := 'p', myoptarg := some "0,0,1" }], r.ch = 'm') ∧
    (∃ args model,
      (task_spawn envInitOk noInstance
        [{ ch := 'm', myoptarg := some "x500" },
         { ch := 'p', myoptarg := some "0,0,1" }]).requested = some args ∧
      args.world = some "default" ∧ args.model = some model ∧
      Bridge.construct args
        = some { _world_name := "default", _model_name := model, _model_pose := args.pose } ∧
      (envInitOk.alloc_succeeds = true →
        task_spawn envInitOk noInstance
            [{ ch := 'm', myoptarg := some "x500" }, { ch := 'p', myoptarg := some "0,0,1" }] =
          if envInitOk.init { _world_name := "default", _model_name := model,
                              _model_pose := args.pose } = Status.PX4_OK then
            SpawnOutcome.returned Status.PX4_OK (some args)
              { _object := some { _world_name := "default", _model_name := model,
                                  _model_pose := args.pose },
                _task_id := envInitOk.task_id_is_work_queue }
          else
            SpawnOutcome.returned Status.PX4_ERROR (some args)
              { _object := none, _task_id := -1 })) ∧
    task_spawn envInitOk noInstance
        [{ ch := 'm', myoptarg := some "x500" }, { ch := 'p', myoptarg := some "0,0,1" }]
      = SpawnOutcome.returned Status.PX4_OK
          (some { world := some "default", model := some "x500", pose := "0,0,1" })
          { _object := some { _world_name := "default", _model_name := "x500",
                              _model_pose := "0,0,1" },
            _task_id := -2 } ∧
    task_spawn envInitOk noInstance
        [{ ch := 'm', myoptarg := some "x500" }, { ch := '?', myoptarg := some "-z" }]
      = SpawnOutcome.returned Status.PX4_ERROR none noInstance :=
  ⟨by decide, by decide,
    (task_spawn_world_default envInitOk noInstance
      [{ ch := 'm', myoptarg := some "x500" }, { ch := 'p', myoptarg := some "0,0,1" }]).2.1
      (by decide) (by decide) (by decide),
    by decide,
    (task_spawn_world_default envInitOk noInstance
      [{ ch := 'm', myoptarg := some "x500" }, { ch := '?', myoptarg := some "-z" }]).2.2
      (by decide)⟩

/-- C9 as stated fails.  The empty sequence of options and the sequence
`-p 0,0,1` are made only of recognised options and hold no `-w`, yet
`task_spawn` constructs no bridge for them: the `new` expression is reached
with world name "default" and a null model name, from which the constructor
builds nothing. -/
theorem task_spawn_constructs_nothing_without_model :
    (∀ r ∈ ([] : List GetoptReturn), recognised r.ch = true ∧ r.ch ≠ 'w') ∧
    task_spawn envInitOk noInstance [] =
      SpawnOutcome.undefined { world := some "default", model := none, pose := "" } ∧
    Bridge.construct { world := some "default", model := none, pose := "" } = none ∧
    (∀ r ∈ [({ ch := 'p', myoptarg := some "0,0,1" } : GetoptReturn)],
      recognised r.ch = true ∧ r.ch ≠ 'w') ∧
    task_spawn envInitOk noInstance [{ ch := 'p', myoptarg := some "0,0,1" }] =
      SpawnOutcome.undefined { world := some "default", model := none, pose := "0,0,1" } ∧
    Bridge.construct { world := some "default", model := none, pose := "0,0,1" } = none :=
  ⟨by decide, by decide, by decide, by decide, by decide, by decide⟩

/-! ### Frame conversion of `imuCallback` -/

theorem rotate_FLU_to_FRD (x y z : ℚ) :
    q_FLU_to_FRD.RotateVector { x := x, y := y, z := z } = { x := x, y := -y, z := -z } := by
  simp [Quaterniond.RotateVector, Quaterniond.mul, Quaterniond.Inverse, q_FLU_to_FRD]

/-- C10.  For every IMU message handled while the system time is non-zero, the
accelerometer sample published is the linear acceleration of the message
converted from FLU to FRD and the gyro sample published is its angular
velocity converted the same way: rotating by the quaternion
(w=0, x=1, y=0, z=0) maps every vector (x, y, z) to (x, -y, -z) in exact
arithmetic. -/
theorem imuCallback_publishes_FRD (env : ClockEnv) (hrt_absolute_time _world_time_us : Nat)
    (imu : IMU) (htime : hrt_absolute_time ≠ 0) :
    (∃ accel gyro,
      (imuCallback env hrt_absolute_time _world_time_us imu).sensor_accel = some accel ∧
      (imuCallback env hrt_absolute_time _world_time_us imu).sensor_gyro = some gyro ∧
      accel.x = imu.linear_acceleration.x ∧
      accel.y = -imu.linear_acceleration.y ∧
      accel.z = -imu.linear_acceleration.z ∧
      gyro.x = imu.angular_velocity.x ∧
      gyro.y = -imu.angular_velocity.y ∧
      gyro.z = -imu.angular_velocity.z) ∧
    (∀ x y z : ℚ,
      q_FLU_to_FRD.RotateVector { x := x, y := y, z := z } = { x := x, y := -y, z := -z }) := by
  refine ⟨?_, rotate_FLU_to_FRD⟩
  unfold imuCallback
  rw [if_neg htime]
  simp only [rotate_FLU_to_FRD]
  exact ⟨_, _, rfl, rfl, rfl, rfl, rfl, rfl, rfl, rfl⟩

/-- Witness of C10: the example message handled at system time 1 s. -/
theorem imuCallback_publishes_FRD_witness :
    (1000000 : Nat) ≠ 0 ∧
    ∃ accel gyro,
      (imuCallback exampleClockEnv 1000000 0 exampleImu).sensor_accel = some accel ∧
      (imuCallback exampleClockEnv 1000000 0 exampleImu).sensor_gyro = some gyro ∧
      accel.x = exampleImu.linear_acceleration.x ∧
      accel.y = -exampleImu.linear_acceleration.y ∧
      accel.z = -exampleImu.linear_acceleration.z ∧
      gyro.x = exampleImu.angular_velocity.x ∧
      gyro.y = -exampleImu.angular_velocity.y ∧
      gyro.z = -exampleImu.angular_velocity.z :=
  ⟨by decide, (imuCallback_publishes_FRD exampleClockEnv 1000000 0 exampleImu (by decide)).1⟩

end SimulatorIgnitionBridge

namespace SimulatorIgnitionBridge

/-! ### Frame conversion of `poseInfoCallback` -/

theorem rotate_diagonal_half_turn (a x y z : ℚ) (ha : a ≠ 0) :
    Quaterniond.RotateVector { qw := 0, qx := a, qy := a, qz := 0 } { x := x, y := y, z := z }
      = { x := y, y := x, z := -z } := by
  have hs : a * a + a * a ≠ 0 := by
    have h2 : a * a + a * a = 2 * (a * a) := by ring
    rw [h2]
    exact mul_ne_zero (by norm_num) (mul_ne_zero ha ha)
  simp only [Quaterniond.RotateVector, Quaterniond.mul, Quaterniond.Inverse]
  simp only [zero_mul, mul_zero, add_zero, zero_add, sub_zero, zero_sub, hs, if_false]
  congr 1 <;> field_simp <;> ring

theorem rotate_ENU_to_NED (v : Vector3d) :
    q_ENU_to_NED.RotateVector v = { x := v.y, y := v.x, z := -v.z } :=
  rotate_diagonal_half_turn (70711 / 100000) v.x v.y v.z (by norm_num)

theorem inverse_ENU_to_NED :
    q_ENU_to_NED.Inverse
      = { qw := 0, qx := -50000 / 70711, qy := -50000 / 70711, qz := 0 } := by
  simp only [Quaterniond.Inverse, q_ENU_to_NED]
  norm_num

theorem rotate_inverse_ENU_to_NED (v : Vector3d) :
    q_ENU_to_NED.Inverse.RotateVector v = { x := v.y, y := v.x, z := -v.z } := by
  rw [inverse_ENU_to_NED]
  exact rotate_diagonal_half_turn (-50000 / 70711) v.x v.y v.z (by norm_num)

/-- C11.  The rotation of the quaternion `q_ENU_to_NED` = (w=0, x=0.70711,
y=0.70711, z=0) maps every vector (x, y, z) to (y, x, -z) in exact arithmetic;
it is its own inverse: the inverse quaternion rotates every vector the same
way, and rotating twice returns the vector.  It is the mapping
`poseInfoCallback` applies to the ground-truth position: for every pose
message handled while the system time is non-zero and holding a pose named as
the model, the local position published is that rotation of the pose
position, and converting a position twice returns the original position. -/
theorem poseInfoCallback_position_symmetric (env : PoseEnv) (_model_name : String)
    (hrt_absolute_time : Nat) (s : PoseState) (pose : Pose_V) (p : Pose)
    (htime : hrt_absolute_time ≠ 0)
    (hpose : pose.pose.find? (fun p => p.name == _model_name) = some p) :
    (∃ lpos,
      (poseInfoCallback env _model_name hrt_absolute_time s pose).local_position = some lpos ∧
      ({ x := lpos.x, y := lpos.y, z := lpos.z } : Vector3d)
        = q_ENU_to_NED.RotateVector p.position ∧
      lpos.x = p.position.y ∧ lpos.y = p.position.x ∧ lpos.z = -p.position.z) ∧
    (∀ x y z : ℚ,
      q_ENU_to_NED.RotateVector { x := x, y := y, z := z } = { x := y, y := x, z := -z }) ∧
    (∀ v : Vector3d, q_ENU_to_NED.Inverse.RotateVector v = q_ENU_to_NED.RotateVector v) ∧
    (∀ v : Vector3d, q_ENU_to_NED.RotateVector (q_ENU_to_NED.RotateVector v) = v) ∧
    (∀ v : Vector3d, positionENUtoNED v = q_ENU_to_NED.RotateVector v) ∧
    (∀ v : Vector3d, positionENUtoNED (positionENUtoNED v) = v) := by
  refine ⟨?_, ?_, ?_, ?_, ?_, ?_⟩
  · unfold poseInfoCallback
    rw [if_neg htime]
    simp only [hpose]
    refine ⟨_, rfl, ?_, rfl, rfl, rfl⟩
    rw [rotate_ENU_to_NED]
    rfl
  · intro x y z
    exact rotate_ENU_to_NED { x := x, y := y, z := z }
  · intro v
    rw [rotate_inverse_ENU_to_NED, rotate_ENU_to_NED]
  · intro v
    rw [rotate_ENU_to_NED, rotate_ENU_to_NED]
    simp
  · intro v
    rw [rotate_ENU_to_NED]
    rfl
  · intro v
    simp [positionENUtoNED]

/-- Witness of C11: the example message handled at system time 1 s by the
bridge of the model "x500", whose pose is at the ENU position (1, 2, 3): the
local position published is (2, 1, -3). -/
theorem poseInfoCallback_position_symmetric_witness :
    (1000000 : Nat) ≠ 0 ∧
    examplePoseV.pose.find? (fun p => p.name == "x500")
      = some { name := "x500", position := { x := 1, y := 2, z := 3 },
               orientation := { qw := 1, qx := 0, qy := 0, qz := 0 } } ∧
    ∃ lpos,
      (poseInfoCallback examplePoseEnv "x500" 1000000 examplePoseState
        examplePoseV).local_position = some lpos ∧
      ({ x := lpos.x, y := lpos.y, z := lpos.z } : Vector3d)
        = q_ENU_to_NED.RotateVector { x := 1, y := 2, z := 3 } ∧
      lpos.x = 2 ∧ lpos.y = 1 ∧ lpos.z = -3 :=
  ⟨by decide, rfl,
    (poseInfoCallback_position_symmetric examplePoseEnv "x500" 1000000 examplePoseState
      examplePoseV
      { name := "x500", position := { x := 1, y := 2, z := 3 },
        orientation := { qw := 1, qx := 0, qy := 0, qz := 0 } }
      (by decide) rfl).1⟩

end SimulatorIgnitionBridge
